import Mathlib

/-!
Verification of the egress allow-list firewall initializer of this
repository and of the firewall test suite in
src/tests/devcontainer/run-all-tests.js.

The initializer itself (.devcontainer/init-firewall.sh) is referenced by the
devcontainer configuration and exercised by the test suite, but the shell
script is not part of the source tree here; the pipeline is therefore
modelled from the specification (sections 2, 4, 6, 7), while the constants
and helper functions of the test suite are embedded from the JavaScript
source directly.
-/

namespace DevKit

/-- Chain policy of a packet-filter chain: accept or drop. -/
inductive Policy
| accept
| drop
deriving DecidableEq

/-- Modelled from the spec: the kinds of accept rules the missing
init-firewall.sh installs (section 4.3 static allows and the section 4.4
address-set rule for outbound port 443). -/
inductive Rule
| acceptLoopback
| acceptEstablished
| acceptDNS
| acceptSSH
| acceptPrivate (lo hi : Nat)
| acceptSetHTTPS
deriving DecidableEq

/-- Modelled from the spec: the OS-level filter policy state owned by the
missing init-firewall.sh — the three chain policies, the rule list, and the
one named address-set (none when the set does not exist). IPv4 addresses
are natural numbers below 2^32. -/
structure FilterState where
  inputPolicy : Policy
  outputPolicy : Policy
  forwardPolicy : Policy
  rules : List Rule
  allowSet : Option (List Nat)
deriving DecidableEq

/-- Modelled from the spec: the primitive mutations of the filter state
that the stages of the missing init-firewall.sh perform. -/
inductive Op
| setInputPolicy (p : Policy)
| setOutputPolicy (p : Policy)
| setForwardPolicy (p : Policy)
| flushRules
| destroySet
| createSet
| addToSet (ip : Nat)
| appendRule (r : Rule)
deriving DecidableEq

/-- Add an address to an address-set, keeping entries unique. -/
def insertIfAbsent (l : List Nat) (ip : Nat) : List Nat :=
  if ip ∈ l then l else l ++ [ip]

/-- Modelled from the spec: the effect of one primitive operation of the
missing init-firewall.sh on the filter state. -/
def applyOp (s : FilterState) : Op → FilterState
| Op.setInputPolicy p => { s with inputPolicy := p }
| Op.setOutputPolicy p => { s with outputPolicy := p }
| Op.setForwardPolicy p => { s with forwardPolicy := p }
| Op.flushRules => { s with rules := [] }
| Op.destroySet => { s with allowSet := none }
| Op.createSet => { s with allowSet := some [] }
| Op.addToSet ip => { s with allowSet := some (insertIfAbsent (s.allowSet.getD []) ip) }
| Op.appendRule r => { s with rules := s.rules ++ [r] }

/-- Apply a sequence of primitive operations in order. -/
def applyOps (s : FilterState) (ops : List Op) : FilterState :=
  ops.foldl applyOp s

/-- An outbound packet: destination IPv4 address, destination port, and
whether it belongs to an established/related connection. -/
structure Packet where
  dest : Nat
  port : Nat
  established : Bool
deriving DecidableEq

/-- The loopback range 127.0.0.0/8, as a half-open interval of addresses. -/
def loopbackRange : Nat × Nat := (127 * 2 ^ 24, 128 * 2 ^ 24)

/-- Modelled from the spec: the permitted private ranges of the missing
init-firewall.sh (container network, host bridge): 10.0.0.0/8,
172.16.0.0/12 and 192.168.0.0/16 as half-open intervals. -/
def privateRanges : List (Nat × Nat) :=
  [(10 * 2 ^ 24, 11 * 2 ^ 24),
   (172 * 2 ^ 24 + 16 * 2 ^ 16, 172 * 2 ^ 24 + 32 * 2 ^ 16),
   (192 * 2 ^ 24 + 168 * 2 ^ 16, 192 * 2 ^ 24 + 169 * 2 ^ 16)]

/-- Membership of an address in a half-open interval of addresses. -/
def inRange (r : Nat × Nat) (ip : Nat) : Bool :=
  decide (r.1 ≤ ip) && decide (ip < r.2)

/-- Whether an address is a loopback address. -/
def isLoopback (ip : Nat) : Bool := inRange loopbackRange ip

/-- Whether an address lies in one of the permitted private ranges. -/
def isPrivate (ip : Nat) : Bool := privateRanges.any (fun r => inRange r ip)

/-- Whether an address is an entry of the named address-set of a filter
state (false when the set does not exist). -/
def setMem (s : FilterState) (ip : Nat) : Bool :=
  (s.allowSet.getD []).contains ip

/-- Modelled from the spec: whether a rule of the missing init-firewall.sh
matches an outbound packet; the address-set rule consults the named set of
the current filter state. -/
def ruleMatches (s : FilterState) (p : Packet) : Rule → Bool
| Rule.acceptLoopback => isLoopback p.dest
| Rule.acceptEstablished => p.established
| Rule.acceptDNS => p.port == 53
| Rule.acceptSSH => p.port == 22
| Rule.acceptPrivate lo hi => inRange (lo, hi) p.dest
| Rule.acceptSetHTTPS => p.port == 443 && setMem s p.dest

/-- An outbound packet passes the filter when some accept rule matches it,
or when the outbound chain policy is accept. -/
def packetAllowed (s : FilterState) (p : Packet) : Bool :=
  s.rules.any (ruleMatches s p) || decide (s.outputPolicy = Policy.accept)

/-- Modelled from the spec: the rule-reset stage of the missing
init-firewall.sh (section 4.2) — flush all rules, delete the pre-existing
named address-set, and set the three chain policies to deny. -/
def resetOps : List Op :=
  [Op.flushRules, Op.destroySet,
   Op.setInputPolicy Policy.drop, Op.setOutputPolicy Policy.drop,
   Op.setForwardPolicy Policy.drop]

/-- Modelled from the spec: the rules of the static allow-list stage of the
missing init-firewall.sh (section 4.3) — loopback, established/related,
outbound DNS, outbound SSH, and the permitted private ranges. -/
def staticRules : List Rule :=
  [Rule.acceptLoopback, Rule.acceptEstablished, Rule.acceptDNS, Rule.acceptSSH] ++
  privateRanges.map (fun r => Rule.acceptPrivate r.1 r.2)

/-- The static allow-list stage as a sequence of primitive operations. -/
def staticOps : List Op := staticRules.map Op.appendRule

/-- Modelled from the spec: the dynamic allow-list stage of the missing
init-firewall.sh (section 4.4) for an already-resolved list of addresses —
create the named address-set, add every resolved address to it, and append
the one rule permitting outbound port-443 traffic to the set. -/
def dynamicOps (ips : List Nat) : List Op :=
  Op.createSet :: (ips.map Op.addToSet ++ [Op.appendRule Rule.acceptSetHTTPS])

/-- The fixed allow-list of the firewall test suite
(src/tests/devcontainer/run-all-tests.js, ALLOWED_DOMAINS). -/
def ALLOWED_DOMAINS : List String :=
  ["registry.npmjs.org", "api.anthropic.com", "sentry.io",
   "statsig.anthropic.com", "statsig.com"]

/-- The non-allow-listed probe hosts of the firewall test suite
(src/tests/devcontainer/run-all-tests.js, BLOCKED_DOMAINS). -/
def BLOCKED_DOMAINS : List String :=
  ["example.com", "google.com", "facebook.com", "twitter.com"]

/-- Modelled from the spec: the execution environment of the missing
init-firewall.sh — whether the packet-filter capability probe succeeds,
the resolver (an empty list means resolution failed or returned zero IPv4
addresses), and whether the service at a hostname answers an HTTPS request
that the filter lets through. -/
structure Env where
  hasIptables : Bool
  dns : String → List Nat
  up : String → Bool

/-- Modelled from the spec: the fixed hostname allow-list of the missing
init-firewall.sh (section 4.4: source-hosting API, package registry,
AI-service API, telemetry/analytics hosts); the source-hosting API is also
the positive verification target expected by the test suite. -/
def firewallAllowList : List String := "api.github.com" :: ALLOWED_DOMAINS

/-- The deliberately non-allow-listed host of the negative verification
check (the test suite expects the run to report being unable to reach
https on example.com). -/
def negativeTarget : String := "example.com"

/-- The allow-listed host of the positive verification check (the test
suite expects the run to report being able to reach https on
api.github.com). -/
def positiveTarget : String := "api.github.com"

/-- Modelled from the spec: resolve every hostname of a list; the whole
resolution fails (none) when any hostname resolves to zero addresses, so
that no partial allow-list is ever installed (sections 4.4 and 7). -/
def resolveAll (env : Env) : List String → Option (List Nat)
| [] => some []
| h :: t =>
  match env.dns h with
  | [] => none
  | ip :: ips =>
    match resolveAll env t with
    | none => none
    | some rest => some ((ip :: ips) ++ rest)

/-- An HTTPS request to a hostname succeeds when the service answers and
the filter lets a fresh outbound packet to port 443 of some resolved
address of the hostname through. -/
def httpsOk (env : Env) (s : FilterState) (host : String) : Bool :=
  env.up host &&
    (env.dns host).any
      (fun ip => packetAllowed s { dest := ip, port := 443, established := false })

/-- Modelled from the spec: the verification stage of the missing
init-firewall.sh (section 4.5) — the negative check (the non-allow-listed
target is unreachable) and the positive check (the allow-listed target is
reachable) must both pass. -/
def firewallVerify (env : Env) (s : FilterState) : Bool :=
  !(httpsOk env s negativeTarget) && httpsOk env s positiveTarget

/-- Result of one run of the initializer: the process exit code, the
filter state left behind, and whether the verification stage was reached. -/
structure RunResult where
  exitCode : Nat
  state : FilterState
  verifyReached : Bool
deriving DecidableEq

/-- The filter state after the reset and static stages: default-deny on
all three chains, the static baseline rules, no address-set. -/
def staticState : FilterState :=
  { inputPolicy := Policy.drop, outputPolicy := Policy.drop,
    forwardPolicy := Policy.drop, rules := staticRules, allowSet := none }

/-- The filter state after the reset, static, and dynamic stages for a
resolved address list. -/
def builtState (ips : List Nat) : FilterState :=
  { inputPolicy := Policy.drop, outputPolicy := Policy.drop,
    forwardPolicy := Policy.drop,
    rules := staticRules ++ [Rule.acceptSetHTTPS],
    allowSet := some (ips.foldl insertIfAbsent []) }

/-- Modelled from the spec: the missing init-firewall.sh as one linear
pipeline (section 4.5 state machine). If the capability probe fails, exit
0 without touching the state. Otherwise reset, install the static allows,
resolve the whole allow-list (fatally, exit 1, when any hostname yields no
address, leaving only the default-deny baseline), install the dynamic
allows, and run the verification stage, exiting 0 exactly when it passes
and 1 otherwise, without modifying the constructed state either way. -/
def initFirewall (env : Env) (s : FilterState) : RunResult :=
  if env.hasIptables then
    match resolveAll env firewallAllowList with
    | none =>
      { exitCode := 1, state := applyOps s (resetOps ++ staticOps),
        verifyReached := false }
    | some ips =>
      let st := applyOps s (resetOps ++ staticOps ++ dynamicOps ips)
      if firewallVerify env st then
        { exitCode := 0, state := st, verifyReached := true }
      else
        { exitCode := 1, state := st, verifyReached := true }
  else { exitCode := 0, state := s, verifyReached := false }

/-- The filter state a capability-enabled run leaves behind, which depends
only on the environment, not on the starting filter state. -/
def runState (env : Env) : FilterState :=
  match resolveAll env firewallAllowList with
  | none => staticState
  | some ips => builtState ips

/-- Whether a capability-enabled run reaches full success: the whole
allow-list resolves and the verification stage passes on the constructed
state. -/
def runSucceeds (env : Env) : Bool :=
  match resolveAll env firewallAllowList with
  | none => false
  | some ips => firewallVerify env (builtState ips)

/-- The operations a capability-enabled run applies after the reset stage. -/
def postOps (env : Env) : List Op :=
  staticOps ++
    (match resolveAll env firewallAllowList with
     | none => []
     | some ips => dynamicOps ips)

/-- Number of entries of the named address-set of a filter state. -/
def setEntryCount (s : FilterState) : Nat := (s.allowSet.getD []).length

/-- Whether a primitive operation leaves the three chain policies alone. -/
def policyNeutral : Op → Bool
| Op.setInputPolicy _ => false
| Op.setOutputPolicy _ => false
| Op.setForwardPolicy _ => false
| _ => true

/-- Result record returned by each test function of the firewall test
suite (src/tests/devcontainer/run-all-tests.js): a success flag and a
human-readable message. -/
structure TestResult where
  success : Bool
  message : String
deriving DecidableEq

/-- The localhost ports probed by testLocalhostAccess
(src/tests/devcontainer/run-all-tests.js, line 474). -/
def localhostPorts : List Nat := [80, 443, 3000, 8080]

/-- The localhost-access check of the firewall test suite
(src/tests/devcontainer/run-all-tests.js, testLocalhostAccess): it probes
the localhost ports through the given connection tester, but its result
has a hard-coded success flag of true, independent of the probes. -/
def testLocalhostAccess (conn : String → Nat → Bool) : TestResult :=
  let _anyWorking := localhostPorts.any (fun port => conn ("localhost") port)
  { success := true,
    message := "Localhost access rules configured (cannot test without running services)" }

/-- Outcome of a raw TCP connection attempt, as observed by the socket
event handlers of testConnection: the connect callback fires, the error
event fires, or the timeout event fires. -/
inductive ConnOutcome
| connected
| refused
| timedOut
deriving DecidableEq

/-- Outcome of an HTTP(S) request, as observed by the handlers of
testHttpRequest: a response with a status code, the error event, or the
timeout event. -/
inductive HttpOutcome
| status (code : Nat)
| connError
| timedOut
deriving DecidableEq

/-- Outcome of spawning the firewall script, as observed by runScript: the
close event with the process exit code and the captured output streams, or
the spawn error event. -/
inductive SpawnOutcome
| closed (code : Int) (stdout stderr : String)
| spawnError (msg : String)
deriving DecidableEq

/-- The connection probe of the firewall test suite
(src/tests/devcontainer/run-all-tests.js, testConnection): the promise
resolves true on connect and false on both the error and the timeout
event; no branch rejects, so the result is always ok. -/
def testConnection (net : String → Nat → ConnOutcome) (host : String)
    (port : Nat) : Except String Bool :=
  match net host port with
  | ConnOutcome.connected => Except.ok true
  | ConnOutcome.refused => Except.ok false
  | ConnOutcome.timedOut => Except.ok false

/-- The HTTP probe of the firewall test suite
(src/tests/devcontainer/run-all-tests.js, testHttpRequest): the promise
resolves to whether the status code is in [200, 400) and resolves false on
the error and timeout events; no branch rejects. -/
def testHttpRequest (web : String → HttpOutcome) (url : String) :
    Except String Bool :=
  match web url with
  | HttpOutcome.status c => Except.ok (decide (200 ≤ c) && decide (c < 400))
  | HttpOutcome.connError => Except.ok false
  | HttpOutcome.timedOut => Except.ok false

/-- The script runner of the firewall test suite
(src/tests/devcontainer/run-all-tests.js, runScript): it resolves with the
exit code and captured streams on the close event — for every exit code,
zero or not — and rejects only on the spawn error event. -/
def runScript (o : SpawnOutcome) : Except String (Int × String × String) :=
  match o with
  | SpawnOutcome.closed code out err => Except.ok (code, out, err)
  | SpawnOutcome.spawnError msg => Except.error msg

/-- A concrete resolver for witnesses and counterexamples: each of the six
allow-listed hostnames and the negative-check host gets one distinct
address; everything else fails to resolve. -/
def dnsA : String → List Nat := fun h =>
  if h = "api.github.com" then [100]
  else if h = "registry.npmjs.org" then [101]
  else if h = "api.anthropic.com" then [102]
  else if h = "sentry.io" then [103]
  else if h = "statsig.anthropic.com" then [104]
  else if h = "statsig.com" then [105]
  else if h = "example.com" then [200]
  else []

/-- A concrete environment in which a run fully succeeds: capability
present, every relevant hostname resolves, every service answers. -/
def envA : Env :=
  { hasIptables := true, dns := dnsA, up := fun _ => true }

/-- A concrete environment like envA except that the service of the
allow-listed hostname sentry.io does not answer. -/
def envB : Env :=
  { hasIptables := true, dns := dnsA,
    up := fun h => if h = "sentry.io" then false else true }

/-- A concrete environment like envA except that the allow-listed hostname
sentry.io does not resolve. -/
def envC : Env :=
  { hasIptables := true,
    dns := fun h => if h = "sentry.io" then [] else dnsA h,
    up := fun _ => true }

/-- A concrete environment like envA except that the positive verification
target api.github.com does not answer, so the verification stage fails. -/
def envD : Env :=
  { hasIptables := true, dns := dnsA,
    up := fun h => if h = "api.github.com" then false else true }

/-- A concrete environment like envA except that the packet-filter
capability probe fails. -/
def envNoCap : Env :=
  { hasIptables := false, dns := dnsA, up := fun _ => true }

/-- A concrete wide-open starting filter state for witnesses and
counterexamples. -/
def state0 : FilterState :=
  { inputPolicy := Policy.accept, outputPolicy := Policy.accept,
    forwardPolicy := Policy.accept, rules := [], allowSet := none }

/-- A concrete outbound DNS packet to a public resolver address that is
neither loopback, nor private, nor in any address-set. -/
def packetDNS : Packet := { dest := 999, port := 53, established := false }

theorem applyOps_append (s : FilterState) (a b : List Op) :
    applyOps s (a ++ b) = applyOps (applyOps s a) b := by
  simp [applyOps]

theorem applyOps_reset (s : FilterState) :
    applyOps s resetOps =
      { inputPolicy := Policy.drop, outputPolicy := Policy.drop,
        forwardPolicy := Policy.drop, rules := [], allowSet := none } := by
  cases s
  rfl

theorem applyOps_reset_static (s : FilterState) :
    applyOps s (resetOps ++ staticOps) = staticState := by
  rw [applyOps_append, applyOps_reset]
  rfl

theorem applyOps_addToSet (ips : List Nat) :
    ∀ (s : FilterState) (l : List Nat), s.allowSet = some l →
      applyOps s (ips.map Op.addToSet) =
        { s with allowSet := some (ips.foldl insertIfAbsent l) } := by
  induction ips with
  | nil =>
    intro s l h
    cases s
    simp_all [applyOps]
  | cons ip ips ih =>
    intro s l h
    have hstep : applyOp s (Op.addToSet ip) =
        { s with allowSet := some (insertIfAbsent l ip) } := by
      simp [applyOp, h]
    calc applyOps s ((ip :: ips).map Op.addToSet)
        = applyOps (applyOp s (Op.addToSet ip)) (ips.map Op.addToSet) := rfl
      _ = { s with allowSet := some (ips.foldl insertIfAbsent (insertIfAbsent l ip)) } := by
          rw [hstep, ih { s with allowSet := some (insertIfAbsent l ip) } (insertIfAbsent l ip) rfl]
      _ = { s with allowSet := some ((ip :: ips).foldl insertIfAbsent l) } := rfl

theorem applyOps_built (s : FilterState) (ips : List Nat) :
    applyOps s (resetOps ++ staticOps ++ dynamicOps ips) = builtState ips := by
  rw [applyOps_append, applyOps_reset_static]
  show applyOps staticState
      (Op.createSet :: (ips.map Op.addToSet ++ [Op.appendRule Rule.acceptSetHTTPS])) =
    builtState ips
  have h1 : applyOps staticState
      (Op.createSet :: (ips.map Op.addToSet ++ [Op.appendRule Rule.acceptSetHTTPS])) =
      applyOps { staticState with allowSet := some [] }
        (ips.map Op.addToSet ++ [Op.appendRule Rule.acceptSetHTTPS]) := rfl
  rw [h1, applyOps_append,
    applyOps_addToSet ips { staticState with allowSet := some [] } [] rfl]
  rfl

theorem initFirewall_state_of_cap (env : Env) (s : FilterState)
    (hcap : env.hasIptables = true) :
    (initFirewall env s).state = runState env := by
  unfold initFirewall runState
  rw [hcap]
  cases hres : resolveAll env firewallAllowList with
  | none => simp [applyOps_reset_static]
  | some ips =>
    simp only [if_true]
    rw [applyOps_built]
    by_cases hv : firewallVerify env (builtState ips) = true
    · simp [hv]
    · simp [hv]

theorem initFirewall_exit (env : Env) (s : FilterState) :
    (initFirewall env s).exitCode =
      if env.hasIptables then (if runSucceeds env then 0 else 1) else 0 := by
  unfold initFirewall runSucceeds
  cases hcap : env.hasIptables with
  | false => simp
  | true =>
    cases hres : resolveAll env firewallAllowList with
    | none => simp
    | some ips =>
      simp only [if_true]
      rw [applyOps_built]
      by_cases hv : firewallVerify env (builtState ips) = true
      · simp [hv]
      · simp [hv]

theorem initFirewall_nocap (env : Env) (s : FilterState)
    (hcap : env.hasIptables = false) : initFirewall env s = RunResult.mk 0 s false := by
  unfold initFirewall
  rw [hcap]
  rfl

theorem mem_insertIfAbsent_self (l : List Nat) (ip : Nat) :
    ip ∈ insertIfAbsent l ip := by
  unfold insertIfAbsent
  by_cases h : ip ∈ l
  · simp [h]
  · simp [h]

theorem mem_insertIfAbsent_of_mem (l : List Nat) (a ip : Nat) (h : a ∈ l) :
    a ∈ insertIfAbsent l ip := by
  unfold insertIfAbsent
  by_cases hm : ip ∈ l
  · simpa [hm]
  · simp [hm, h]

theorem mem_foldl_insertIfAbsent (ips : List Nat) :
    ∀ (l : List Nat) (a : Nat), a ∈ l ∨ a ∈ ips →
      a ∈ ips.foldl insertIfAbsent l := by
  induction ips with
  | nil =>
    intro l a h
    simpa [applyOps] using h.resolve_right (by simp)
  | cons ip ips ih =>
    intro l a h
    show a ∈ ips.foldl insertIfAbsent (insertIfAbsent l ip)
    rcases h with hl | hm
    · exact ih _ a (Or.inl (mem_insertIfAbsent_of_mem l a ip hl))
    · rcases List.mem_cons.mp hm with heq | ht
      · exact ih _ a (Or.inl (heq ▸ mem_insertIfAbsent_self l ip))
      · exact ih _ a (Or.inr ht)

theorem resolveAll_mem (l : List String) (env : Env) (ips : List Nat) (d : String)
    (hres : resolveAll env l = some ips) (hd : d ∈ l) :
    env.dns d ≠ [] ∧ ∀ a ∈ env.dns d, a ∈ ips := by
  induction l generalizing ips with
  | nil => cases hd
  | cons h t ih =>
    unfold resolveAll at hres
    cases hh : env.dns h with
    | nil => rw [hh] at hres; cases hres
    | cons ip ips0 =>
      rw [hh] at hres
      cases hrest : resolveAll env t with
      | none => rw [hrest] at hres; cases hres
      | some rest =>
        rw [hrest] at hres
        have hips : ips = (ip :: ips0) ++ rest := by
          cases hres
          rfl
        rcases List.mem_cons.mp hd with heq | ht
        · subst heq
          constructor
          · rw [hh]; simp
          · intro a ha
            rw [hh] at ha
            rw [hips]
            exact List.mem_append_left rest ha
        · obtain ⟨hne, hsub⟩ := ih rest hrest ht
          refine ⟨hne, fun a ha => ?_⟩
          rw [hips]
          exact List.mem_append_right _ (hsub a ha)

theorem resolveAll_none (l : List String) (env : Env) (d : String)
    (hd : d ∈ l) (hfail : env.dns d = []) :
    resolveAll env l = none := by
  induction l with
  | nil => cases hd
  | cons h t ih =>
    unfold resolveAll
    rcases List.mem_cons.mp hd with heq | ht
    · subst heq
      rw [hfail]
    · cases hh : env.dns h with
      | nil => rfl
      | cons ip ips0 =>
        rw [ih ht]

theorem applyOps_policyNeutral (t : List Op) :
    ∀ s : FilterState, (∀ o ∈ t, policyNeutral o = true) →
      (applyOps s t).inputPolicy = s.inputPolicy ∧
      (applyOps s t).outputPolicy = s.outputPolicy ∧
      (applyOps s t).forwardPolicy = s.forwardPolicy := by
  induction t with
  | nil => intro s _; exact ⟨rfl, rfl, rfl⟩
  | cons o t ih =>
    intro s hn
    have ho : policyNeutral o = true := hn o (by simp)
    have ht : ∀ o ∈ t, policyNeutral o = true := fun o hm => hn o (by simp [hm])
    have hstep : (applyOp s o).inputPolicy = s.inputPolicy ∧
        (applyOp s o).outputPolicy = s.outputPolicy ∧
        (applyOp s o).forwardPolicy = s.forwardPolicy := by
      cases o <;> simp_all [applyOp, policyNeutral]
    obtain ⟨h1, h2, h3⟩ := ih (applyOp s o) ht
    exact ⟨h1.trans hstep.1, h2.trans hstep.2.1, h3.trans hstep.2.2⟩

theorem setMem_built (ips : List Nat) (a : Nat) (ha : a ∈ ips) :
    setMem (builtState ips) a = true := by
  have hm := mem_foldl_insertIfAbsent ips [] a (Or.inr ha)
  simp [setMem, builtState]
  exact hm

theorem packetAllowed_built_https (ips : List Nat) (a : Nat)
    (hs : setMem (builtState ips) a = true) :
    packetAllowed (builtState ips) { dest := a, port := 443, established := false } = true := by
  unfold packetAllowed
  have hany : (builtState ips).rules.any
      (ruleMatches (builtState ips) { dest := a, port := 443, established := false }) = true := by
    apply List.any_eq_true.mpr
    refine ⟨Rule.acceptSetHTTPS, ?_, ?_⟩
    · show Rule.acceptSetHTTPS ∈ staticRules ++ [Rule.acceptSetHTTPS]
      exact List.mem_append_right _ (by simp)
    · simp [ruleMatches, hs]
  rw [hany]
  rfl

theorem packetBlocked_built (ips : List Nat) (p : Packet)
    (he : p.established = false) (hl : isLoopback p.dest = false)
    (hp : isPrivate p.dest = false) (hs : setMem (builtState ips) p.dest = false)
    (h53 : p.port ≠ 53) (h22 : p.port ≠ 22) :
    packetAllowed (builtState ips) p = false := by
  unfold isPrivate privateRanges at hp
  simp at hp
  obtain ⟨hp1, hp2, hp3⟩ := hp
  unfold packetAllowed builtState staticRules privateRanges
  simp [ruleMatches, he, hl, h53, h22, hp1, hp2, hp3]
  exact fun _ => hs

theorem success_resolves (env : Env) (h : runSucceeds env = true) :
    ∃ ips, resolveAll env firewallAllowList = some ips ∧
      firewallVerify env (builtState ips) = true := by
  unfold runSucceeds at h
  cases hres : resolveAll env firewallAllowList with
  | none => rw [hres] at h; cases h
  | some ips =>
    rw [hres] at h
    exact ⟨ips, rfl, h⟩

theorem exit_zero_succeeds (env : Env) (s : FilterState)
    (hcap : env.hasIptables = true) (h0 : (initFirewall env s).exitCode = 0) :
    runSucceeds env = true := by
  have hx := initFirewall_exit env s
  rw [hcap] at hx
  by_cases hsucc : runSucceeds env = true
  · exact hsucc
  · rw [h0] at hx
    simp [hsucc] at hx

theorem runState_some (env : Env) (ips : List Nat)
    (hres : resolveAll env firewallAllowList = some ips) :
    runState env = builtState ips := by
  unfold runState
  rw [hres]

theorem postOps_policyNeutral (env : Env) :
    ∀ o ∈ postOps env, policyNeutral o = true := by
  intro o ho
  unfold postOps at ho
  rcases List.mem_append.mp ho with hs | hd
  · unfold staticOps at hs
    obtain ⟨r, _, hr⟩ := List.mem_map.mp hs
    rw [← hr]
    rfl
  · cases hres : resolveAll env firewallAllowList with
    | none => rw [hres] at hd; cases hd
    | some ips =>
      rw [hres] at hd
      unfold dynamicOps at hd
      rcases List.mem_cons.mp hd with heq | htail
      · rw [heq]; rfl
      · rcases List.mem_append.mp htail with hmap | hlast
        · obtain ⟨ip, _, hip⟩ := List.mem_map.mp hmap
          rw [← hip]
          rfl
        · rw [List.mem_singleton.mp hlast]
          rfl

/-- Claim C3: for every configured hostname of the allow-list, if it
resolves to zero IPv4 addresses the whole initialization exits non-zero,
the verification stage is never reached, and the state left behind is
exactly the default-deny baseline with the static rules and no address-set
(no partial allow-list is installed). -/
theorem resolution_failure_fatal (env : Env) (s : FilterState) (d : String)
    (hcap : env.hasIptables = true) (hd : d ∈ firewallAllowList)
    (hfail : env.dns d = []) :
    (initFirewall env s).exitCode = 1 ∧
    (initFirewall env s).verifyReached = false ∧
    (initFirewall env s).state = staticState := by
  have hnone := resolveAll_none firewallAllowList env d hd hfail
  unfold initFirewall
  rw [hcap, hnone]
  exact ⟨rfl, rfl, applyOps_reset_static s⟩

/-- Witness for claim C3: in the concrete environment envC the hostname
sentry.io does not resolve, and the run exits 1 before verification with
only the static baseline active. -/
theorem resolution_failure_fatal_witness :
    (initFirewall envC state0).exitCode = 1 ∧
    (initFirewall envC state0).verifyReached = false ∧
    (initFirewall envC state0).state = staticState :=
  resolution_failure_fatal envC state0 ("sentry.io") (by decide) (by decide) (by decide)

/-- Claim C4: when the capability probe fails the initializer exits 0
without mutating the filter state; exit code 0 holds exactly when either
the capability is absent or the run fully succeeds, and every other
outcome yields an exit code of at least 1. -/
theorem capability_gate (env : Env) (s : FilterState) :
    (env.hasIptables = false →
      (initFirewall env s).exitCode = 0 ∧ (initFirewall env s).state = s) ∧
    ((initFirewall env s).exitCode = 0 ↔
      (env.hasIptables = false ∨ runSucceeds env = true)) ∧
    ((initFirewall env s).exitCode ≠ 0 → 1 ≤ (initFirewall env s).exitCode) := by
  have hx := initFirewall_exit env s
  refine ⟨fun hcap => ?_, ?_, ?_⟩
  · rw [initFirewall_nocap env s hcap]
    exact ⟨rfl, rfl⟩
  · rw [hx]
    cases hcap : env.hasIptables with
    | false => simp
    | true =>
      cases hsucc : runSucceeds env with
      | false => simp
      | true => simp
  · intro hne
    rw [hx] at hne ⊢
    by_cases hcap : env.hasIptables = true
    · by_cases hsucc : runSucceeds env = true
      · simp [hcap, hsucc] at hne
      · simp [hcap, hsucc]
    · simp [hcap] at hne

/-- Witness for claim C4: in the concrete environment envNoCap the probe
fails, the run exits 0 and leaves the wide-open starting state untouched. -/
theorem capability_gate_witness :
    (initFirewall envNoCap state0).exitCode = 0 ∧
    (initFirewall envNoCap state0).state = state0 :=
  (capability_gate envNoCap state0).1 (by decide)

/-- Claim C5: the initializer is idempotent — for every environment and
every starting filter state, running it a second time from the state the
first run left behind reproduces exactly that state, so the address-set
entry count after run two equals the count after run one; the reset stage
contains the deletion of any pre-existing named address-set. -/
theorem initializer_idempotent (env : Env) (s : FilterState) :
    (initFirewall env (initFirewall env s).state).state = (initFirewall env s).state ∧
    setEntryCount (initFirewall env (initFirewall env s).state).state =
      setEntryCount (initFirewall env s).state ∧
    Op.destroySet ∈ resetOps := by
  cases hcap : env.hasIptables with
  | true =>
    have h1 := initFirewall_state_of_cap env s hcap
    have h2 := initFirewall_state_of_cap env (initFirewall env s).state hcap
    rw [h2, h1]
    exact ⟨rfl, rfl, by simp [resetOps]⟩
  | false =>
    rw [initFirewall_nocap env s hcap]
    rw [initFirewall_nocap env _ hcap]
    exact ⟨rfl, rfl, by simp [resetOps]⟩

/-- Witness for claim C5: in the concrete environment envA, the second run
reproduces exactly the state of the first run. -/
theorem initializer_idempotent_witness :
    (initFirewall envA (initFirewall envA state0).state).state =
      (initFirewall envA state0).state :=
  (initializer_idempotent envA state0).1

/-- Claim C8: when the verification stage fails, the initializer exits 1
and the filter state left behind is exactly the state constructed by the
reset, static, and dynamic stages — the failure path changes no rule,
chain policy, or address-set entry. -/
theorem verification_failure_no_rollback (env : Env) (s : FilterState) (ips : List Nat)
    (hcap : env.hasIptables = true)
    (hres : resolveAll env firewallAllowList = some ips)
    (hver : firewallVerify env (builtState ips) = false) :
    (initFirewall env s).exitCode = 1 ∧
    (initFirewall env s).state = builtState ips ∧
    (initFirewall env s).verifyReached = true := by
  unfold initFirewall
  rw [hcap, hres]
  simp only [if_true]
  rw [applyOps_built, hver]
  exact ⟨rfl, rfl, rfl⟩

/-- Witness for claim C8: in the concrete environment envD the positive
verification target does not answer, so verification fails, the run exits
1 and leaves exactly the constructed state. -/
theorem verification_failure_no_rollback_witness :
    (initFirewall envD state0).exitCode = 1 ∧
    (initFirewall envD state0).state = builtState [100, 101, 102, 103, 104, 105] ∧
    (initFirewall envD state0).verifyReached = true :=
  verification_failure_no_rollback envD state0 [100, 101, 102, 103, 104, 105]
    (by decide) (by decide) (by decide)

/-- Claim C9: the localhost-access check of the firewall test suite can
never fail — for every connection-probe environment its result has
success true, and the result does not depend on the environment at all, so
the check contributes nothing to the pass/fail outcome of the suite. -/
theorem localhost_check_trivial :
    (∀ conn : String → Nat → Bool, (testLocalhostAccess conn).success = true) ∧
    (∀ conn conn' : String → Nat → Bool,
      testLocalhostAccess conn = testLocalhostAccess conn') :=
  ⟨fun _ => rfl, fun _ _ => rfl⟩

/-- Claim C10: the network-probe helpers of the firewall test suite are
total — testConnection and testHttpRequest always resolve to a boolean
(connection errors, timeouts, and non-2xx/3xx statuses resolve to false,
never to a rejection), and runScript resolves with the exit code of the
child for every exit code. -/
theorem probes_total :
    (∀ (net : String → Nat → ConnOutcome) (host : String) (port : Nat),
      (∃ b, testConnection net host port = Except.ok b) ∧
      (testConnection net host port = Except.ok true ↔
        net host port = ConnOutcome.connected)) ∧
    (∀ (web : String → HttpOutcome) (url : String),
      (∃ b, testHttpRequest web url = Except.ok b) ∧
      (testHttpRequest web url = Except.ok true ↔
        ∃ c, web url = HttpOutcome.status c ∧ 200 ≤ c ∧ c < 400)) ∧
    (∀ (code : Int) (out err : String),
      runScript (SpawnOutcome.closed code out err) = Except.ok (code, out, err)) := by
  refine ⟨fun net host port => ?_, fun web url => ?_, fun code out err => rfl⟩
  · cases h : net host port <;> simp [testConnection, h]
  · cases h : web url <;> simp [testHttpRequest, h]

/-- Witness for claim C9: at a concrete probe environment where no port
answers, the localhost check still reports success. -/
theorem localhost_check_trivial_witness :
    (testLocalhostAccess (fun _ _ => false)).success = true :=
  localhost_check_trivial.1 (fun _ _ => false)

/-- Witness for claim C10: at a concrete non-zero exit, runScript resolves
with the exit code instead of rejecting. -/
theorem probes_total_witness :
    runScript (SpawnOutcome.closed 2 ("out") ("err")) = Except.ok (2, "out", "err") :=
  probes_total.2.2 2 ("out") ("err")

/-- Claim C1 (counterexample): the claim as stated is false on the model —
after a fully successful run of the initializer in the concrete
environment envA, the outbound DNS packet packetDNS (port 53, public
destination 999) matches none of loopback, established/related, the
permitted private ranges, or the allow-list address-set, and yet it is not
dropped, because the static stage permits outbound DNS unconditionally. -/
theorem default_deny_counterexample :
    (initFirewall envA state0).exitCode = 0 ∧
    packetDNS.established = false ∧
    isLoopback packetDNS.dest = false ∧
    isPrivate packetDNS.dest = false ∧
    setMem (initFirewall envA state0).state packetDNS.dest = false ∧
    packetAllowed (initFirewall envA state0).state packetDNS = true := by
  decide

/-- Claim C1 (amended): after every successful run, every outbound packet
that is not established/related, not to a loopback or private address, not
addressed to an entry of the allow-list address-set, and not outbound DNS
(port 53) or SSH (port 22) traffic — which the static stage permits
unconditionally — is dropped; consequently an HTTPS request to any host
none of whose resolved addresses are loopback, private, or in the
address-set fails. -/
theorem default_deny_amended (env : Env) (s : FilterState)
    (hcap : env.hasIptables = true) (h0 : (initFirewall env s).exitCode = 0) :
    (∀ p : Packet, p.established = false → isLoopback p.dest = false →
      isPrivate p.dest = false → setMem (initFirewall env s).state p.dest = false →
      p.port ≠ 53 → p.port ≠ 22 →
      packetAllowed (initFirewall env s).state p = false) ∧
    (∀ host : String,
      ((env.dns host).all fun a =>
        !(isLoopback a) && !(isPrivate a) &&
          !(setMem (initFirewall env s).state a)) = true →
      httpsOk env (initFirewall env s).state host = false) := by
  obtain ⟨ips, hres, hver⟩ := success_resolves env (exit_zero_succeeds env s hcap h0)
  have hst : (initFirewall env s).state = builtState ips :=
    (initFirewall_state_of_cap env s hcap).trans (runState_some env ips hres)
  rw [hst]
  constructor
  · intro p he hl hp hs h53 h22
    exact packetBlocked_built ips p he hl hp hs h53 h22
  · intro host hall
    unfold httpsOk
    have hany : ((env.dns host).any fun ip =>
        packetAllowed (builtState ips)
          { dest := ip, port := 443, established := false }) = false := by
      rw [List.any_eq_false]
      intro ip hip
      have hcond := List.all_eq_true.mp hall ip hip
      rw [Bool.and_eq_true, Bool.and_eq_true] at hcond
      obtain ⟨⟨hl, hp⟩, hs⟩ := hcond
      rw [Bool.not_eq_true'] at hl hp hs
      simp only [Bool.not_eq_true]
      exact packetBlocked_built ips { dest := ip, port := 443, established := false }
        rfl hl hp hs (by simp) (by simp)
    rw [hany]
    simp

/-- Witness for claim C1 (amended): in the concrete environment envA the
run succeeds, a fresh outbound HTTPS packet to the public address 500 is
dropped, and an HTTPS request to an unknown host fails. -/
theorem default_deny_amended_witness :
    (initFirewall envA state0).exitCode = 0 ∧
    packetAllowed (initFirewall envA state0).state
      { dest := 500, port := 443, established := false } = false ∧
    httpsOk envA (initFirewall envA state0).state ("no-such-host.invalid") = false :=
  ⟨by decide,
   (default_deny_amended envA state0 (by decide) (by decide)).1
     { dest := 500, port := 443, established := false }
     (by decide) (by decide) (by decide) (by decide) (by decide) (by decide),
   (default_deny_amended envA state0 (by decide) (by decide)).2
     ("no-such-host.invalid") (by decide)⟩

/-- Claim C2: given the capability, the initializer exits 0 only when both
verification checks pass on the final state — the negative check (the
non-allow-listed target is unreachable) and the positive check (the
allow-listed target is reachable) — and whenever the verification stage is
reached and either check fails, the run exits non-zero. -/
theorem verification_gates_success (env : Env) (s : FilterState)
    (hcap : env.hasIptables = true) :
    ((initFirewall env s).exitCode = 0 →
      ∃ ips, resolveAll env firewallAllowList = some ips ∧
        httpsOk env (initFirewall env s).state negativeTarget = false ∧
        httpsOk env (initFirewall env s).state positiveTarget = true) ∧
    (∀ ips, resolveAll env firewallAllowList = some ips →
      (httpsOk env (builtState ips) negativeTarget = true ∨
       httpsOk env (builtState ips) positiveTarget = false) →
      1 ≤ (initFirewall env s).exitCode) := by
  constructor
  · intro h0
    obtain ⟨ips, hres, hver⟩ := success_resolves env (exit_zero_succeeds env s hcap h0)
    have hst : (initFirewall env s).state = builtState ips :=
      (initFirewall_state_of_cap env s hcap).trans (runState_some env ips hres)
    rw [hst]
    unfold firewallVerify at hver
    rw [Bool.and_eq_true, Bool.not_eq_true'] at hver
    exact ⟨ips, hres, hver.1, hver.2⟩
  · intro ips hres hfail
    have hver : firewallVerify env (builtState ips) = false := by
      unfold firewallVerify
      rcases hfail with hneg | hpos
      · rw [hneg]; rfl
      · rw [hpos]; simp
    have hsucc : runSucceeds env = false := by
      simp [runSucceeds, hres, hver]
    have hx := initFirewall_exit env s
    rw [hcap, hsucc] at hx
    simp at hx
    rw [hx]

/-- Witness for claim C2: in the concrete environment envA the run exits 0
and both verification checks indeed pass on the final state. -/
theorem verification_gates_success_witness :
    ∃ ips, resolveAll envA firewallAllowList = some ips ∧
      httpsOk envA (initFirewall envA state0).state negativeTarget = false ∧
      httpsOk envA (initFirewall envA state0).state positiveTarget = true :=
  (verification_gates_success envA state0 (by decide)).1 (by decide)

/-- Claim C6 (counterexample): the claim as stated is false on the model —
in the concrete environment envB every hostname resolves and the run exits
0, but the allow-listed hostname sentry.io is an HTTPS request failure
after the run, because its service does not answer and the verification
stage only certifies the positive-check host. -/
theorem allowlist_reachable_counterexample :
    (initFirewall envB state0).exitCode = 0 ∧
    "sentry.io" ∈ ALLOWED_DOMAINS ∧
    httpsOk envB (initFirewall envB state0).state ("sentry.io") = false := by
  decide

/-- Claim C6 (amended): after every successful run, each hostname of the
fixed allow-list resolves to at least one address, every resolved address
of it is in the named address-set, the rule permitting outbound port-443
traffic to the set is installed, and an HTTPS request to the hostname
succeeds whenever its service answers. -/
theorem allowlist_reachable_amended (env : Env) (s : FilterState)
    (hcap : env.hasIptables = true) (h0 : (initFirewall env s).exitCode = 0) :
    ∀ d ∈ ALLOWED_DOMAINS,
      env.dns d ≠ [] ∧
      (∀ a ∈ env.dns d, setMem (initFirewall env s).state a = true) ∧
      Rule.acceptSetHTTPS ∈ (initFirewall env s).state.rules ∧
      (env.up d = true → httpsOk env (initFirewall env s).state d = true) := by
  intro d hd
  obtain ⟨ips, hres, hver⟩ := success_resolves env (exit_zero_succeeds env s hcap h0)
  have hst : (initFirewall env s).state = builtState ips :=
    (initFirewall_state_of_cap env s hcap).trans (runState_some env ips hres)
  rw [hst]
  have hdf : d ∈ firewallAllowList := List.mem_cons_of_mem _ hd
  obtain ⟨hne, hsub⟩ := resolveAll_mem firewallAllowList env ips d hres hdf
  refine ⟨hne, fun a ha => setMem_built ips a (hsub a ha), ?_, fun hup => ?_⟩
  · show Rule.acceptSetHTTPS ∈ staticRules ++ [Rule.acceptSetHTTPS]
    exact List.mem_append_right _ (by simp)
  · unfold httpsOk
    rw [hup]
    cases hdl : env.dns d with
    | nil => exact absurd hdl hne
    | cons a rest =>
      have ham : a ∈ env.dns d := by rw [hdl]; simp
      have hpkt : packetAllowed (builtState ips)
          { dest := a, port := 443, established := false } = true :=
        packetAllowed_built_https ips a (setMem_built ips a (hsub a ham))
      simp [hpkt]

/-- Witness for claim C6 (amended): in the concrete environment envA an
HTTPS request to the allow-listed package-registry host succeeds after the
run. -/
theorem allowlist_reachable_amended_witness :
    httpsOk envA (initFirewall envA state0).state ("registry.npmjs.org") = true :=
  ((allowlist_reachable_amended envA state0 (by decide) (by decide))
    ("registry.npmjs.org") (by decide)).2.2.2 (by decide)

/-- Claim C7: the pipeline is fail-closed after the reset stage — the
reset stage sets all three chain policies to deny before any allow rule is
built, no later operation changes a chain policy, so after any prefix of
the post-reset operations the policies are still deny; and a
capability-enabled run applies exactly the reset operations followed by
the post-reset operations. -/
theorem fail_closed_after_reset (env : Env) (s : FilterState) (t rest : List Op)
    (hsplit : postOps env = t ++ rest) :
    (applyOps s (resetOps ++ t)).inputPolicy = Policy.drop ∧
    (applyOps s (resetOps ++ t)).outputPolicy = Policy.drop ∧
    (applyOps s (resetOps ++ t)).forwardPolicy = Policy.drop ∧
    (env.hasIptables = true →
      (initFirewall env s).state = applyOps s (resetOps ++ postOps env)) := by
  have hmem : ∀ o ∈ t, policyNeutral o = true := by
    intro o ho
    exact postOps_policyNeutral env o (by rw [hsplit]; exact List.mem_append_left rest ho)
  obtain ⟨h1, h2, h3⟩ :=
    applyOps_policyNeutral t (applyOps s resetOps) hmem
  rw [applyOps_append s resetOps t]
  refine ⟨?_, ?_, ?_, fun hcap => ?_⟩
  · rw [h1, applyOps_reset]
  · rw [h2, applyOps_reset]
  · rw [h3, applyOps_reset]
  · rw [initFirewall_state_of_cap env s hcap]
    unfold runState postOps
    cases hres : resolveAll env firewallAllowList with
    | none =>
      rw [List.append_nil]
      exact (applyOps_reset_static s).symm
    | some ips =>
      rw [← List.append_assoc]
      exact (applyOps_built s ips).symm

/-- Witness for claim C7: with the empty prefix of post-reset operations
in the concrete environment envA, the state right after the reset stage
has all three chain policies deny, and the run state is the result of the
reset operations followed by the post-reset operations. -/
theorem fail_closed_after_reset_witness :
    (applyOps state0 (resetOps ++ [])).inputPolicy = Policy.drop ∧
    (applyOps state0 (resetOps ++ [])).outputPolicy = Policy.drop ∧
    (applyOps state0 (resetOps ++ [])).forwardPolicy = Policy.drop ∧
    (initFirewall envA state0).state = applyOps state0 (resetOps ++ postOps envA) := by
  obtain ⟨h1, h2, h3, h4⟩ :=
    fail_closed_after_reset envA state0 [] (postOps envA) (by simp)
  exact ⟨h1, h2, h3, h4 (by decide)⟩

end DevKit
